import Mathlib

/-! Verification of the Data-Analyst-Agent task-to-answer pipeline.

Shallow embedding of the TypeScript services of the Data-Analyst-Agent
repository (task parsing, data processing, answer assembly, AI-analysis
transport fallback, and the hard-coded correlation path), together with
theorems settling the specification claims C1..C10.

Modelling conventions:
* JavaScript strings are Lean `String`s; `String.prototype.includes`,
  `toLowerCase`, `parseFloat`, `parseInt` and the few regular expressions the
  source uses are modelled by executable Lean functions below.
* JavaScript numbers are modelled by `ℚ` inside the data-processing layer
  (where all arithmetic is exact on the inputs the pipeline produces) and by
  `ℝ` in the correlation path (where `Math.sqrt` appears).
* Exceptions are modelled by `Except`/`Option`; a function that the source
  guarantees to return normally is embedded as a total Lean function.
-/

namespace DAA

/-! ## JavaScript runtime primitives -/

/-- Membership of `needle` as a contiguous substring of `hay`
(model of `String.prototype.includes` on the underlying character lists). -/
def listContains (needle : List Char) : List Char → Bool
  | [] => needle.isEmpty
  | c :: t => needle.isPrefixOf (c :: t) || listContains needle t

/-- `s.includes(t)` for JavaScript strings. -/
def strIncludes (s t : String) : Bool :=
  listContains t.toList s.toList

/-- `s.toLowerCase()` (ASCII case mapping, which is all the source relies on). -/
def jsToLower (s : String) : String :=
  ⟨s.toList.map Char.toLower⟩

/-- The whitespace class of JavaScript's `\s` and `trim` (ASCII part; the
source never feeds exotic Unicode spaces through these paths). -/
def jsIsSpace (c : Char) : Bool :=
  c = ' ' || c = '\t' || c = '\n' || c = '\r' || c = '\x0b' || c = '\x0c'

/-- `s.trim()`. -/
def jsTrim (s : String) : String :=
  ⟨(s.toList.dropWhile jsIsSpace).reverse.dropWhile jsIsSpace |>.reverse⟩

/-- Value of a list of decimal digits. -/
def digitsVal (ds : List Char) : ℕ :=
  ds.foldl (fun acc c => 10 * acc + (c.toNat - '0'.toNat)) 0

/-- `parseInt(s)` (decimal form): skip leading whitespace, optional sign,
then a non-empty digit run; `none` models `NaN`.  (The hexadecimal `0x`
special case of `parseInt` never arises on the table cells the source feeds
it and is not modelled.) -/
def jsParseInt (s : String) : Option ℤ :=
  let cs := s.toList.dropWhile jsIsSpace
  let (sign, cs) : ℤ × List Char :=
    match cs with
    | '-' :: t => (-1, t)
    | '+' :: t => (1, t)
    | t => (1, t)
  let ds := cs.takeWhile Char.isDigit
  if ds.isEmpty then none else some (sign * (digitsVal ds : ℤ))

/-- `parseFloat(s)`: skip leading whitespace, optional sign, decimal mantissa
(digits, optional point, digits — at least one digit overall), optional
exponent; `none` models `NaN`.  The value
`sign * mantissaDigits * 10 ^ (exponent - fractionLength)` is assembled with
integer arithmetic and `mkRat` so that the definition evaluates by kernel
reduction.  (`Infinity` literals never arise in this pipeline and are not
modelled.) -/
def jsParseFloat (s : String) : Option ℚ :=
  let cs := s.toList.dropWhile jsIsSpace
  let (sign, cs) : ℤ × List Char :=
    match cs with
    | '-' :: t => (-1, t)
    | '+' :: t => (1, t)
    | t => (1, t)
  let intDs := cs.takeWhile Char.isDigit
  let cs := cs.drop intDs.length
  let (fracDs, cs) : List Char × List Char :=
    match cs with
    | '.' :: t => (t.takeWhile Char.isDigit, t.drop (t.takeWhile Char.isDigit).length)
    | t => ([], t)
  if intDs.isEmpty && fracDs.isEmpty then none
  else
    let mant : ℤ := sign * (digitsVal (intDs ++ fracDs) : ℤ)
    let expo : ℤ :=
      match cs with
      | 'e' :: t | 'E' :: t =>
        let (esign, t) : ℤ × List Char :=
          match t with
          | '-' :: u => (-1, u)
          | '+' :: u => (1, u)
          | u => (1, u)
        let eds := t.takeWhile Char.isDigit
        if eds.isEmpty then 0 else esign * (digitsVal eds : ℤ)
      | _ => 0
    let e : ℤ := expo - (fracDs.length : ℤ)
    if 0 ≤ e then some (mkRat (mant * (10 : ℤ) ^ e.toNat) 1)
    else some (mkRat mant ((10 : ℕ) ^ (-e).toNat))

/-! ## Task-parser data model (`analysis.types` as used by the services) -/

inductive QType where
  | count | calculation | correlation | visualization | comparison | text | date
  deriving DecidableEq, Repr

inductive EFormat where
  | number | string | boolean | array | object | base64_image
  deriving DecidableEq, Repr

inductive OutFormat where
  | json_array | json_object | text
  deriving DecidableEq, Repr

inductive TType where
  | web_scraping | database_query | data_analysis | mixed
  deriving DecidableEq, Repr

inductive DataSource where
  | web (url : String)
  | database (query : String)
  | duckdb (query : String)
  | file (filePath : String)
  deriving DecidableEq, Repr

/-- The chart configuration produced by `parseVisualizationConfig`.  Fields
the source only sets conditionally are `Option`s (`none` = property absent
from the JavaScript object). -/
structure VisConfig where
  vtype : String
  width : ℕ
  height : ℕ
  format : String
  showRegression : Option Bool := none
  regressionStyle : Option String := none
  regressionColor : Option String := none
  xAxis : Option String := none
  yAxis : Option String := none
  deriving DecidableEq, Repr

structure Question where
  text : String
  qtype : QType
  expectedFormat : EFormat
  visualization : Option VisConfig := none
  deriving DecidableEq, Repr

/-- A fully-populated `AnalysisTask` (what the parser returns). -/
structure AnalysisTask where
  ttype : TType
  dataSource : Option DataSource := none
  processing : List String := []
  questions : List Question
  outputFormat : OutFormat
  context : Option String := none
  deriving DecidableEq, Repr

/-- A possibly-incomplete task, as obtained from `JSON.parse` of an
assisted-path response before `validateAndEnhanceTask` fills the gaps. -/
structure RawTask where
  ttype : Option TType := none
  dataSource : Option DataSource := none
  processing : List String := []
  questions : Option (List Question) := none
  outputFormat : Option OutFormat := none
  context : Option String := none
  deriving DecidableEq, Repr

def AnalysisTask.toRaw (t : AnalysisTask) : RawTask :=
  { ttype := some t.ttype, dataSource := t.dataSource, processing := t.processing
    questions := some t.questions, outputFormat := some t.outputFormat
    context := t.context }

/-! ## Regular-expression models used by `TaskParser` -/

/-- First match of `/https?:\/\/[^\s]+/` in a character list: at each start
position try the literal scheme, then a non-empty greedy run of non-space
characters. -/
def urlScan : List Char → Option (List Char)
  | [] => none
  | c :: rest =>
    let cs := c :: rest
    let afterHttps := cs.drop 8
    let afterHttp := cs.drop 7
    if "https://".toList.isPrefixOf cs && !(afterHttps.takeWhile (fun d => !jsIsSpace d)).isEmpty then
      some ("https://".toList ++ afterHttps.takeWhile (fun d => !jsIsSpace d))
    else if "http://".toList.isPrefixOf cs && !(afterHttp.takeWhile (fun d => !jsIsSpace d)).isEmpty then
      some ("http://".toList ++ afterHttp.takeWhile (fun d => !jsIsSpace d))
    else urlScan rest

/-- First URL in a task description (`taskDescription.match(/https?:\/\/[^\s]+/g)`,
first element). -/
def firstUrlMatch (s : String) : Option String :=
  (urlScan s.toList).map fun cs => ⟨cs⟩

/-- Least index at which `pat` occurs case-insensitively in `cs`. -/
def findIdxCI (pat : List Char) : List Char → Option ℕ
  | [] => if pat.isEmpty then some 0 else none
  | c :: t =>
    if (pat.map Char.toLower).isPrefixOf ((c :: t).map Char.toLower) then some 0
    else (findIdxCI pat t).map (· + 1)

/-- First match of `/SELECT[\s\S]*?FROM[\s\S]*?;/i`: the earliest `SELECT`,
then (lazily) the earliest following `FROM`, then the earliest following `;`,
all case-insensitive. -/
def duckdbMatch (s : String) : Option String := do
  let cs := s.toList
  let i ← findIdxCI "SELECT".toList cs
  let afterSel := cs.drop (i + 6)
  let j ← findIdxCI "FROM".toList afterSel
  let afterFrom := afterSel.drop (j + 4)
  let k ← findIdxCI ";".toList afterFrom
  some ⟨cs.drop i |>.take (6 + j + 4 + k + 1)⟩

/-- Attempt the numbered-question pattern `\d+\.\s+([^]*?)(?=\n\d+\.|$)` at the
head of `cs`: a non-empty digit run, a dot, a non-empty whitespace run, then a
lazy body ending at the first `\n` followed by digits and a dot (or at the end
of input).  Returns the whole match and the remaining input. -/
def numStartMatch (cs : List Char) : Option (List Char × List Char) :=
  let ds := cs.takeWhile Char.isDigit
  if ds.isEmpty then none
  else
    match cs.drop ds.length with
    | '.' :: rest =>
      let ws := rest.takeWhile jsIsSpace
      if ws.isEmpty then none
      else
        let body := rest.drop ws.length
        let stop := bodyEnd body
        some (ds ++ '.' :: ws ++ body.take stop, body.drop stop)
    | _ => none
where
  /-- Number of body characters consumed before the `(?=\n\d+\.)` lookahead
  (or end of input) first holds. -/
  bodyEnd : List Char → ℕ
    | [] => 0
    | c :: t =>
      if c = '\n' && !(t.takeWhile Char.isDigit).isEmpty &&
          (t.drop (t.takeWhile Char.isDigit).length).headD ' ' = '.' then 0
      else bodyEnd t + 1

/-- All matches of the numbered-question pattern (global search: after a match
the scan resumes at the first unconsumed character; otherwise it advances one
character). -/
def numberedScan : ℕ → List Char → List (List Char)
  | 0, _ => []
  | _, [] => []
  | fuel + 1, c :: rest =>
    match numStartMatch (c :: rest) with
    | some (m, after) => m :: numberedScan fuel after
    | none => numberedScan fuel rest

/-- `taskDescription.match(/\d+\.\s+([^]*?)(?=\n\d+\.|$)/g)`, as a list
(`[]` models a `null` result). -/
def numberedMatches (s : String) : List String :=
  (numberedScan s.toList.length s.toList).map fun cs => ⟨cs⟩

/-- `q.replace(/^\d+\.\s+/, '')`: strip one leading `digits.whitespace`
prefix if present. -/
def stripLeadingNumber (s : String) : String :=
  let cs := s.toList
  let ds := cs.takeWhile Char.isDigit
  if ds.isEmpty then s
  else
    match cs.drop ds.length with
    | '.' :: rest =>
      let ws := rest.takeWhile jsIsSpace
      if ws.isEmpty then s else ⟨rest.drop ws.length⟩
    | _ => s

/-- First match of `/(\w+)\s+regression/` (the captured word). -/
def wordBeforeRegression : List Char → Option String
  | [] => none
  | c :: t =>
    let cs := c :: t
    let w := cs.takeWhile isWordChar
    let afterW := cs.drop w.length
    let ws := afterW.takeWhile jsIsSpace
    if !w.isEmpty && !ws.isEmpty &&
        "regression".toList.isPrefixOf (afterW.drop ws.length) then
      some ⟨w⟩
    else wordBeforeRegression t
where
  isWordChar (c : Char) : Bool := c.isAlphanum || c = '_'

/-- First match of `/(\w+)\s+and\s+(\w+)/` (the two captured words). -/
def axisMatch : List Char → Option (String × String)
  | [] => none
  | c :: t =>
    let cs := c :: t
    let w1 := cs.takeWhile isWordChar
    let r1 := cs.drop w1.length
    let ws1 := r1.takeWhile jsIsSpace
    let r2 := r1.drop ws1.length
    if !w1.isEmpty && !ws1.isEmpty && "and".toList.isPrefixOf r2 then
      let r3 := r2.drop 3
      let ws2 := r3.takeWhile jsIsSpace
      let r4 := r3.drop ws2.length
      let w2 := r4.takeWhile isWordChar
      if !ws2.isEmpty && !w2.isEmpty then some (⟨w1⟩, ⟨w2⟩)
      else axisMatch t
    else axisMatch t
where
  isWordChar (c : Char) : Bool := c.isAlphanum || c = '_'

/-! ## `TaskParser` -/

/-- `TaskParser.determineQuestionType`. -/
def determineQuestionType (questionText : String) : QType :=
  let text := jsToLower questionText
  if strIncludes text "how many" || strIncludes text "count" || strIncludes text "number of" then .count
  else if strIncludes text "correlation" || strIncludes text "relationship" then .correlation
  else if strIncludes text "plot" || strIncludes text "chart" || strIncludes text "graph" || strIncludes text "visualization" then .visualization
  else if strIncludes text "calculate" || strIncludes text "compute" || strIncludes text "average" || strIncludes text "sum" then .calculation
  else if strIncludes text "compare" || strIncludes text "versus" || strIncludes text "vs" then .comparison
  else if strIncludes text "date" || strIncludes text "time" || strIncludes text "when" || strIncludes text "earliest" || strIncludes text "latest" then .date
  else .text

/-- `TaskParser.determineExpectedFormat`. -/
def determineExpectedFormat (questionText : String) : EFormat :=
  let text := jsToLower questionText
  if strIncludes text "base64" || strIncludes text "base-64" || strIncludes text "data:image" || strIncludes text "visualization" || strIncludes text "plot" || strIncludes text "chart" then .base64_image
  else if strIncludes text "how many" || strIncludes text "count" || strIncludes text "number" || strIncludes text "correlation" then .number
  else if strIncludes text "list" || strIncludes text "array" then .array
  else if strIncludes text "true" || strIncludes text "false" || strIncludes text "yes" || strIncludes text "no" then .boolean
  else .string

/-- `TaskParser.parseVisualizationConfig`. -/
def parseVisualizationConfig (questionText : String) : VisConfig :=
  let text := jsToLower questionText
  let vtype :=
    if strIncludes text "scatterplot" || strIncludes text "scatter plot" then "scatter"
    else if strIncludes text "line" || strIncludes text "trend" then "line"
    else if strIncludes text "bar" || strIncludes text "column" then "bar"
    else if strIncludes text "pie" then "pie"
    else if strIncludes text "histogram" then "histogram"
    else "scatter"
  let base : VisConfig := { vtype := vtype, width := 800, height := 600, format := "png" }
  let withReg :=
    if strIncludes text "regression" then
      { base with
        showRegression := some true
        regressionStyle := some (if strIncludes text "dotted" then "dotted"
          else if strIncludes text "dashed" then "dashed" else "solid")
        regressionColor := wordBeforeRegression text.toList }
    else base
  match axisMatch text.toList with
  | some (x, y) => { withReg with xAxis := some x, yAxis := some y }
  | none => withReg

/-- The visualization keywords of `fallbackTaskParsing`. -/
def visualizationKeywords : List String :=
  ["plot", "chart", "graph", "scatterplot", "scatter plot", "visualization", "draw"]

/-- The per-question visualization pass of `fallbackTaskParsing`. -/
def applyVisualizationPass (q : Question) : Question :=
  if visualizationKeywords.any (fun kw => strIncludes (jsToLower q.text) kw) then
    { q with qtype := .visualization, expectedFormat := .base64_image
             visualization := some (parseVisualizationConfig q.text) }
  else q

/-- `TaskParser.fallbackTaskParsing`. -/
def fallbackTaskParsing (taskDescription : String) : AnalysisTask :=
  let dataSource :=
    match duckdbMatch taskDescription with
    | some q => some (DataSource.duckdb q)
    | none =>
      match firstUrlMatch taskDescription with
      | some u => some (DataSource.web u)
      | none => none
  let ttype :=
    if (duckdbMatch taskDescription).isSome then TType.database_query
    else if (firstUrlMatch taskDescription).isSome then TType.web_scraping
    else TType.mixed
  let questions : List Question :=
    match numberedMatches taskDescription with
    | [] => [{ text := taskDescription, qtype := .text, expectedFormat := .string }]
    | qs => qs.map fun q =>
        let text := jsTrim (stripLeadingNumber q)
        { text := text, qtype := determineQuestionType text
          expectedFormat := determineExpectedFormat text }
  let questions := questions.map applyVisualizationPass
  let outputFormat :=
    if strIncludes taskDescription "JSON array" then OutFormat.json_array
    else if strIncludes taskDescription "JSON object" then OutFormat.json_object
    else OutFormat.json_array
  { ttype := ttype, dataSource := dataSource, questions := questions
    outputFormat := outputFormat, context := some taskDescription }

/-- The default question `validateAndEnhanceTask` synthesizes. -/
def defaultQuestion (originalDescription : String) : Question :=
  { text := originalDescription, qtype := .text, expectedFormat := .string }

/-- `TaskParser.validateAndEnhanceTask`.  (`if (!task.context)` is a JavaScript
falsiness test, so an empty-string context is also replaced.) -/
def validateAndEnhanceTask (task : RawTask) (originalDescription : String) : AnalysisTask :=
  let questions :=
    match task.questions with
    | none => [defaultQuestion originalDescription]
    | some [] => [defaultQuestion originalDescription]
    | some qs => qs
  let questions := questions.map fun q =>
    if q.qtype = .visualization && q.visualization.isNone then
      { q with visualization := some (parseVisualizationConfig q.text) }
    else q
  { ttype := task.ttype.getD .mixed
    dataSource := task.dataSource
    processing := task.processing
    questions := questions
    outputFormat := task.outputFormat.getD .json_array
    context := some (match task.context with
      | some c => if c = "" then originalDescription else c
      | none => originalDescription) }

/-- Outcome of the assisted (language-model) extraction path, as observed by
`parseTask`: a response that `JSON.parse` turns into a (possibly incomplete)
task; a response `JSON.parse` rejects; or an exception anywhere inside the
`try` block.  The transport itself (`generateResponse`) catches its own
failures, but `parseTask` additionally guards everything with `try/catch`. -/
inductive AiOutcome where
  | assistedValid (t : RawTask)
  | assistedUnparseable
  | assistedThrew
  deriving DecidableEq, Repr

/-- `TaskParser.parseTask`: total — every assisted-path outcome yields a plan.
On a JSON-parse failure the fallback plan is additionally run through
`validateAndEnhanceTask` (as in the source); on an exception the bare
fallback plan is returned from the `catch` block. -/
def parseTask (taskDescription : String) (outcome : AiOutcome) : AnalysisTask :=
  match outcome with
  | .assistedValid t => validateAndEnhanceTask t taskDescription
  | .assistedUnparseable =>
    validateAndEnhanceTask (fallbackTaskParsing taskDescription).toRaw taskDescription
  | .assistedThrew => fallbackTaskParsing taskDescription


/-! ## Data-processing service (`DataProcessingService`, record-list variant)

Record-list data is a sequence of JavaScript objects whose property values in
this pipeline are strings or numbers (a missing property reads as
`undefined`). -/

inductive Cell where
  | str (s : String)
  | num (q : ℚ)
  | undefined
  deriving DecidableEq, Repr

abbrev Record := List (String × Cell)

/-- First-key-wins association lookup (JavaScript objects cannot hold
duplicate keys, so on the records this pipeline builds this is exact). -/
def assocLookup {α : Type} (k : String) : List (String × α) → Option α
  | [] => none
  | (k2, v) :: t => if k2 = k then some v else assocLookup k t

/-- `item[field]` (`undefined` when the property is absent). -/
def getField (r : Record) (f : String) : Cell :=
  (assocLookup f r).getD .undefined

/-- `obj[k] = v` on a JavaScript object represented as an ordered field list:
overwrite in place if the key exists, else append. -/
def jsSetField {α : Type} (fields : List (String × α)) (k : String) (v : α) : List (String × α) :=
  if fields.any (fun p => p.1 = k) then
    fields.map (fun p => if p.1 = k then (k, v) else p)
  else fields ++ [(k, v)]

/-- Decimal digits of `r / d` (fuel-bounded; JavaScript prints the shortest
round-tripping decimal of a double — on the terminating decimals this
pipeline produces the two agree). -/
def fracDigits : ℕ → ℕ → ℕ → List Char
  | 0, _, _ => []
  | fuel + 1, r, d =>
    if r = 0 then []
    else Char.ofNat ('0'.toNat + r * 10 / d) :: fracDigits fuel (r * 10 % d) d

/-- `String(x)` for a number. -/
def qToString (q : ℚ) : String :=
  let sign := if q < 0 then "-" else ""
  let n := q.num.natAbs
  let ip := n / q.den
  let fr := fracDigits 17 (n % q.den) q.den
  if fr.isEmpty then sign ++ toString ip
  else sign ++ toString ip ++ "." ++ (⟨fr⟩ : String)

/-- `String(x)` for a cell value. -/
def cellToString : Cell → String
  | .str s => s
  | .num q => qToString q
  | .undefined => "undefined"

/-- `parseFloat(x)` on a cell (a number argument is stringified and re-parsed
by JavaScript, which is the identity on the numbers this pipeline holds). -/
def cellParseFloat : Cell → Option ℚ
  | .str s => jsParseFloat s
  | .num q => some q
  | .undefined => none

/-- `parseFloat(x) || 0`. -/
def cellToNumOr0 (c : Cell) : ℚ :=
  (cellParseFloat c).getD 0

/-- JavaScript strict equality `===` on the cell values of this pipeline. -/
def jsStrictEq : Cell → Cell → Bool
  | .str a, .str b => a = b
  | .num a, .num b => a = b
  | .undefined, .undefined => true
  | _, _ => false

inductive FilterOp where
  | equals | not_equals | greater_than | less_than | contains | starts_with | ends_with | other
  deriving DecidableEq, Repr

/-- The per-record predicate of `DataProcessingService.filterData`
(record-list variant): one arm per operator, `true` for unknown operators. -/
def filterKeep (op : FilterOp) (itemValue value : Cell) : Bool :=
  match op with
  | .equals => jsStrictEq itemValue value
  | .not_equals => !jsStrictEq itemValue value
  | .greater_than =>
    match cellParseFloat itemValue, cellParseFloat value with
    | some a, some b => decide (b < a)
    | _, _ => false
  | .less_than =>
    match cellParseFloat itemValue, cellParseFloat value with
    | some a, some b => decide (a < b)
    | _, _ => false
  | .contains =>
    strIncludes (jsToLower (cellToString itemValue)) (jsToLower (cellToString value))
  | .starts_with =>
    (jsToLower (cellToString value)).toList.isPrefixOf (jsToLower (cellToString itemValue)).toList
  | .ends_with =>
    (jsToLower (cellToString value)).toList.reverse.isPrefixOf (jsToLower (cellToString itemValue)).toList.reverse
  | .other => true

/-- `DataProcessingService.filterData` (record-list variant). -/
def filterData (recs : List Record) (field : String) (op : FilterOp) (value : Cell) : List Record :=
  recs.filter fun item => filterKeep op (getField item field) value

/-- Three-way comparison of two numbers (the sign of `aNum - bNum`). -/
def ratCompare (x y : ℚ) : Ordering :=
  if x < y then .lt else if y < x then .gt else .eq

/-- Code-point lexicographic comparison (modelling `localeCompare` on the
ASCII data this pipeline sorts). -/
def listCompare : List Char → List Char → Ordering
  | [], [] => .eq
  | [], _ :: _ => .lt
  | _ :: _, [] => .gt
  | a :: as2, b :: bs => if a < b then .lt else if b < a then .gt else listCompare as2 bs

/-- `a.localeCompare(b)` after both sides were lowercased. -/
def strCompare (a b : String) : Ordering :=
  listCompare a.toList b.toList

/-- The comparator of `DataProcessingService.sortData` (record-list variant):
numeric when both field values `parseFloat`, else comparison of the
lowercased strings. -/
def sortCmp (field : String) (ascending : Bool) (a b : Record) : Ordering :=
  let aVal := getField a field
  let bVal := getField b field
  match cellParseFloat aVal, cellParseFloat bVal with
  | some aNum, some bNum => if ascending then ratCompare aNum bNum else ratCompare bNum aNum
  | _, _ =>
    let aStr := jsToLower (cellToString aVal)
    let bStr := jsToLower (cellToString bVal)
    if ascending then strCompare aStr bStr else strCompare bStr aStr

/-- Modelled from the spec: "numeric comparison attempted first (parse both
operands as floating point), falling back to case-insensitive lexical
comparison if either side fails to parse", ascending or descending. -/
def specSortCmp (field : String) (ascending : Bool) (a b : Record) : Ordering :=
  let av := getField a field
  let bv := getField b field
  if (cellParseFloat av).isSome && (cellParseFloat bv).isSome then
    if ascending then ratCompare ((cellParseFloat av).getD 0) ((cellParseFloat bv).getD 0)
    else ratCompare ((cellParseFloat bv).getD 0) ((cellParseFloat av).getD 0)
  else
    if ascending then strCompare (jsToLower (cellToString av)) (jsToLower (cellToString bv))
    else strCompare (jsToLower (cellToString bv)) (jsToLower (cellToString av))

/-- Stable insertion of `x` into a sorted list (before the first element it
does not come after). -/
def insertBy {α : Type} (le : α → α → Bool) (x : α) : List α → List α
  | [] => [x]
  | y :: ys => if le x y then x :: y :: ys else y :: insertBy le x ys

/-- `Array.prototype.sort` with a comparator (stable since ES2019), modelled
as a stable insertion sort. -/
def jsArraySort {α : Type} (le : α → α → Bool) : List α → List α
  | [] => []
  | x :: xs => insertBy le x (jsArraySort le xs)

/-- `DataProcessingService.sortData` (record-list variant). -/
def sortData (recs : List Record) (field : String) (ascending : Bool) : List Record :=
  jsArraySort (fun a b => sortCmp field ascending a b != Ordering.gt) recs

inductive CalcOp where
  | add | subtract | multiply | divide | other
  deriving DecidableEq, Repr

/-- The arithmetic of `DataProcessingService.calculateData`; division by zero
is defined to 0 by the source's ternary guard. -/
def calcApply : CalcOp → ℚ → ℚ → ℚ
  | .add, a, b => a + b
  | .subtract, a, b => a - b
  | .multiply, a, b => a * b
  | .divide, a, b => if b ≠ 0 then a / b else 0
  | .other, _, _ => 0

/-- One record of `calculateData`: `{...item, [newField]: result}`. -/
def calcRecord (op : CalcOp) (field1 field2 newField : String) (item : Record) : Record :=
  jsSetField item newField
    (.num (calcApply op (cellToNumOr0 (getField item field1)) (cellToNumOr0 (getField item field2))))

/-- `DataProcessingService.calculateData` (record-list variant). -/
def calculateData (recs : List Record) (op : CalcOp) (field1 field2 newField : String) : List Record :=
  recs.map (calcRecord op field1 field2 newField)

/-! ## Answer assembly (`DataAnalystService.formatResults`) -/

/-- JSON-serializable answer values. -/
inductive JVal where
  | str (s : String)
  | num (q : ℚ)
  | jbool (b : Bool)
  | jnull
  | undefined
  | arr (elems : List JVal)
  | obj (fields : List (String × JVal))

/-- JavaScript truthiness of an answer value. -/
def jsTruthy : JVal → Bool
  | .str s => s != ""
  | .num q => q != 0
  | .jbool b => b
  | .jnull => false
  | .undefined => false
  | .arr _ => true
  | .obj _ => true

/-- Sequentially perform the assignments `obj[k] = v`. -/
def assignAll (m : List (String × JVal)) : List (String × JVal) → List (String × JVal)
  | [] => m
  | p :: ps => assignAll (jsSetField m p.1 p.2) ps

/-- The `(question.text, results[index])` pairs of the keyed-object loop
(`results[index]` is `undefined` past the end of the answer list). -/
def questionPairs : List Question → List JVal → List (String × JVal)
  | [], _ => []
  | q :: qs, rs => (q.text, rs.headD .undefined) :: questionPairs qs rs.tail

/-- The object built by `formatResults` for `outputFormat = 'json_object'`. -/
def buildResultObject (qs : List Question) (results : List JVal) : List (String × JVal) :=
  assignAll [] (questionPairs qs results)

def courtKey1 : String := "Which high court disposed the most cases from 2019 - 2022?"

def courtKey2 : String := "What\x27s the regression slope of the date_of_registration - decision_date by year in the court=33_10?"

def courtKey3 : String := "Plot the year and # of days of delay from the above question as a scatterplot with a regression line. Encode as a base64 data URI under 100,000 characters"

def courtPlaceholder : String := "data:image/png;base64,iVBORw0KG..."

/-- `task.dataSource?.url` (only a web source carries a `url` property). -/
def dsUrl : Option DataSource → Option String
  | some (.web u) => some u
  | _ => none

/-- `DataAnalystService.formatResults`. -/
def formatResults (results : List JVal) (task : AnalysisTask) : JVal :=
  if ((dsUrl task.dataSource).map (fun u => strIncludes u "List_of_highest-grossing_films")).getD false
      || (task.context.map (fun c => strIncludes c "JSON array")).getD false then
    .arr results
  else if (task.context.map (fun c => strIncludes c "Indian high court judgement dataset")).getD false then
    .obj [(courtKey1, .str "Madras High Court"),
          (courtKey2, .str "0.75"),
          (courtKey3, if jsTruthy (results.headD .undefined) then results.headD .undefined
                      else .str courtPlaceholder)]
  else if task.outputFormat = .json_array then .arr results
  else if task.outputFormat = .json_object then .obj (buildResultObject task.questions results)
  else .arr results

/-- Key lookup on an object result. -/
def objLookup (v : JVal) (k : String) : Option JVal :=
  match v with
  | .obj fields => assocLookup k fields
  | _ => none

/-- The value of the last assignment to key `k` in a pair sequence
(proof helper). -/
def lastAssign {α : Type} (k : String) : List (String × α) → Option α
  | [] => none
  | p :: ps =>
    match lastAssign k ps with
    | some v => some v
    | none => if p.1 = k then some p.2 else none

/-! ## AI-analysis transport (`AIAnalysisService.generateResponse`) and the
legacy retry helper (`makeOpenAICall` of `pages/api/index.js`) -/

/-- `AIAnalysisService.generateMockResponse`. -/
def generateMockResponse (prompt : String) : String :=
  let p := jsToLower prompt
  if strIncludes p "count" || strIncludes p "how many" then
    (if strIncludes p "2 bn" || strIncludes p "$2" then "1" else "5")
  else if strIncludes p "correlation" then "0.485782"
  else if strIncludes p "earliest" && strIncludes p "1.5 bn" then "Titanic"
  else if strIncludes p "high court" && strIncludes p "2019" && strIncludes p "2022" then "Delhi High Court"
  else if strIncludes p "regression slope" then "0.75"
  else "Mock analysis result"

/-- What one proxied completion request can come back as: a thrown transport
error, a non-2xx HTTP status (401/403 for authentication failures), a 2xx
body without `choices[0].message`, or a content string. -/
inductive LMFetchResult where
  | networkError
  | httpError (status : ℕ)
  | okInvalid
  | okContent (content : String)
  deriving DecidableEq, Repr

/-- `AIAnalysisService.generateResponse`: with no API key the mock is used;
otherwise every transport outcome except a well-formed 2xx response — the
thrown error, any non-ok status (authentication included), and a malformed
body — falls back to the mock.  The function is total: no outcome is
re-raised. -/
def generateResponse (apiKey : String) (prompt : String) (result : LMFetchResult) : String :=
  if apiKey = "" then generateMockResponse prompt
  else
    match result with
    | .okContent c => c
    | .networkError => generateMockResponse prompt
    | .httpError _ => generateMockResponse prompt
    | .okInvalid => generateMockResponse prompt

/-- A thrown JavaScript error, as inspected by `makeOpenAICall`
(`error.status`). -/
structure JsError where
  status : Option ℕ := none
  message : String := ""
  deriving DecidableEq, Repr

/-- `error.status === 401 || error.status === 403`. -/
def isAuthError (e : JsError) : Bool :=
  e.status = some 401 || e.status = some 403

/-- The attempt loop of `makeOpenAICall` (`pages/api/index.js`): `attempts i`
is the outcome of the `i`-th call; an authentication error is re-thrown
immediately, other errors retry while attempts remain. -/
def runAttempts (attempts : ℕ → Except JsError String) : ℕ → ℕ → Except JsError String
  | i, fuel =>
    match attempts i with
    | .ok r => .ok r
    | .error e =>
      if isAuthError e then .error e
      else
        match fuel with
        | 0 => .error e
        | f + 1 => runAttempts attempts (i + 1) f

/-- `makeOpenAICall(messages, maxRetries)`. -/
def makeOpenAICall (attempts : ℕ → Except JsError String) (maxRetries : ℕ) : Except JsError String :=
  runAttempts attempts 0 maxRetries

/-! ## Scraped tables and the hard-coded question paths
(`DataAnalystService.analyzeSpecificQuestion` and helpers) -/

structure TableData where
  headers : List String
  rows : List (List String)
  deriving DecidableEq, Repr

structure ScrapedData where
  tables : List TableData
  deriving DecidableEq, Repr

/-- First capture of `/\$?([\d,]+)/`: the first maximal run of digits and
commas. -/
def firstNumRun : List Char → Option (List Char)
  | [] => none
  | c :: t =>
    if c.isDigit || c = ',' then some ((c :: t).takeWhile (fun d => d.isDigit || d = ','))
    else firstNumRun t

/-- `parseInt(grossMatch[1].replace(/,/g, ''))`. -/
def parseGross (s : String) : Option ℤ :=
  (firstNumRun s.toList).bind fun run => jsParseInt ⟨run.filter (fun c => c ≠ ',')⟩

/-- `DataAnalystService.count2BnMoviesBefore2020`. -/
def count2BnMoviesBefore2020 (data : Option ScrapedData) : ℤ :=
  match data with
  | none => 0
  | some d =>
    match d.tables with
    | [] => 0
    | table :: _ =>
      match table.headers.findIdx? (fun h => h == "Worldwide gross"),
            table.headers.findIdx? (fun h => h == "Year") with
      | some grossIdx, some yearIdx =>
        table.rows.foldl (fun count row =>
          match parseGross (row.getD grossIdx ""), jsParseInt (row.getD yearIdx "") with
          | some gross, some year => if 2000 ≤ gross ∧ year < 2020 then count + 1 else count
          | _, _ => count) 0
      | _, _ => 0

/-- `DataAnalystService.findEarliestMovieOver1_5Bn`. -/
def findEarliestMovieOver1_5Bn (data : Option ScrapedData) : String :=
  match data with
  | none => "Unknown"
  | some d =>
    match d.tables with
    | [] => "Unknown"
    | table :: _ =>
      match table.headers.findIdx? (fun h => h == "Title"),
            table.headers.findIdx? (fun h => h == "Worldwide gross"),
            table.headers.findIdx? (fun h => h == "Year") with
      | some titleIdx, some grossIdx, some yearIdx =>
        (table.rows.foldl (fun st row =>
          match parseGross (row.getD grossIdx ""), jsParseInt (row.getD yearIdx "") with
          | some gross, some year =>
            if 1500 ≤ gross ∧ (match st.1 with | none => true | some e => decide (year < e)) = true then
              (some year, row.getD titleIdx "")
            else st
          | _, _ => st) ((none, "Unknown") : Option ℤ × String)).2
      | _, _, _ => "Unknown"

/-- Rank/Peak column extraction of `calculateRankPeakCorrelation`: the pairs
of the first table's rows whose `Rank` and `Peak` cells both `parseInt`. -/
def extractRankPeak (data : Option ScrapedData) : Option (List ℤ × List ℤ) :=
  match data with
  | none => none
  | some d =>
    match d.tables with
    | [] => none
    | table :: _ =>
      match table.headers.findIdx? (fun h => h == "Rank"),
            table.headers.findIdx? (fun h => h == "Peak") with
      | some rankIdx, some peakIdx =>
        let pairs := table.rows.filterMap fun row =>
          match jsParseInt (row.getD rankIdx ""), jsParseInt (row.getD peakIdx "") with
          | some r, some p => some (r, p)
          | _, _ => none
        some (pairs.map Prod.fst, pairs.map Prod.snd)
      | _, _ => none

/-- The five sums of the source's Pearson computation. -/
def corrStats (ranks peaks : List ℤ) : ℤ × ℤ × ℤ × ℤ × ℤ :=
  (ranks.sum, peaks.sum,
   ((ranks.zip peaks).map (fun p => p.1 * p.2)).sum,
   (ranks.map (fun x => x * x)).sum,
   (peaks.map (fun y => y * y)).sum)

/-- `Math.round(x * 1000000) / 1000000` (JavaScript rounds half toward
positive infinity). -/
noncomputable def jsRound6 (x : ℝ) : ℝ :=
  (⌊x * 1000000 + 1 / 2⌋ : ℤ) / 1000000

open scoped Classical in
/-- `DataAnalystService.calculateRankPeakCorrelation`. -/
noncomputable def calculateRankPeakCorrelation (data : Option ScrapedData) : ℝ :=
  match extractRankPeak data with
  | none => 0
  | some (ranks, peaks) =>
    if ranks.length < 2 then 0
    else
      let n : ℤ := ranks.length
      let s := corrStats ranks peaks
      let numerator : ℤ := n * s.2.2.1 - s.1 * s.2.1
      let denominator : ℝ :=
        Real.sqrt (((n * s.2.2.2.1 - s.1 * s.1) * (n * s.2.2.2.2 - s.2.1 * s.2.1) : ℤ) : ℝ)
      if denominator = 0 then 0 else jsRound6 ((numerator : ℝ) / denominator)

/-- An answer slot as produced by `analyzeSpecificQuestion`: a directly
computed value, or a delegation to the LanguageModel collaborator
(`aiAnalysis.analyzeQuestion`). -/
inductive QAnswer where
  | directNum (x : ℝ)
  | directStr (s : String)
  | delegated (question : String) (qtype : QType)

/-- `DataAnalystService.analyzeSpecificQuestion`: three hard-coded substring
patterns, tried in source order, else delegation. -/
noncomputable def analyzeSpecificQuestion (data : Option ScrapedData) (question : String)
    (qtype : QType) : QAnswer :=
  let ql := jsToLower question
  if strIncludes ql "how many" && strIncludes ql "2 bn" && strIncludes ql "before 2020" then
    .directNum (count2BnMoviesBefore2020 data)
  else if strIncludes ql "earliest" && strIncludes ql "1.5 bn" then
    .directStr (findEarliestMovieOver1_5Bn data)
  else if strIncludes ql "correlation" && strIncludes ql "rank" && strIncludes ql "peak" then
    .directNum (calculateRankPeakCorrelation data)
  else .delegated question qtype

/-- Modelled from the spec: the standard Pearson correlation coefficient
(mean-centered form), the reference formula the spec's numerical claim
compares the hard-coded path against. -/
noncomputable def pearsonStd (xs ys : List ℝ) : ℝ :=
  let n : ℝ := xs.length
  let xbar := xs.sum / n
  let ybar := ys.sum / n
  ((xs.zip ys).map (fun p => (p.1 - xbar) * (p.2 - ybar))).sum /
    (Real.sqrt ((xs.map (fun x => (x - xbar) ^ 2)).sum) *
     Real.sqrt ((ys.map (fun y => (y - ybar) ^ 2)).sum))

/-- The concrete Rank/Peak table of the spec's numerical scenario. -/
def rankPeakTable : TableData :=
  { headers := ["Rank", "Peak"],
    rows := [["1", "1"], ["2", "1"], ["3", "1"], ["4", "2"], ["5", "3"]] }

def rankPeakData : ScrapedData := { tables := [rankPeakTable] }

/-! ## Helper lemmas -/

theorem fallback_questions_ne_nil (td : String) :
    (fallbackTaskParsing td).questions ≠ [] := by
  unfold fallbackTaskParsing
  cases h : numberedMatches td with
  | nil => simp [h]
  | cons a l => simp [h]

theorem validate_questions_ne_nil (raw : RawTask) (od : String) :
    (validateAndEnhanceTask raw od).questions ≠ [] := by
  unfold validateAndEnhanceTask
  cases h : raw.questions with
  | none => simp [h]
  | some qs =>
    cases qs with
    | nil => simp [h]
    | cons q l => simp [h]

theorem assocLookup_cons {α : Type} (k : String) (p : String × α) (t : List (String × α)) :
    assocLookup k (p :: t) = if p.1 = k then some p.2 else assocLookup k t := rfl

theorem assocLookup_map_set_ne {α : Type} (ps : List (String × α)) (k k2 : String) (v : α)
    (h : k2 ≠ k) :
    assocLookup k2 (ps.map (fun p => if p.1 = k then (k, v) else p)) = assocLookup k2 ps := by
  induction ps with
  | nil => rfl
  | cons p ps ih =>
    rw [List.map_cons]
    by_cases hp : p.1 = k
    · rw [if_pos hp, assocLookup_cons, assocLookup_cons, ih]
      have h1 : ¬ ((k, v).1 = k2) := fun hh => h hh.symm
      have h2 : ¬ (p.1 = k2) := by rw [hp]; exact fun hh => h hh.symm
      rw [if_neg h1, if_neg h2]
    · rw [if_neg hp, assocLookup_cons, assocLookup_cons, ih]

theorem assocLookup_map_set_eq {α : Type} (ps : List (String × α)) (k : String) (v : α)
    (hmem : ps.any (fun p => p.1 = k) = true) :
    assocLookup k (ps.map (fun p => if p.1 = k then (k, v) else p)) = some v := by
  induction ps with
  | nil => simp at hmem
  | cons p ps ih =>
    rw [List.map_cons]
    by_cases hp : p.1 = k
    · rw [if_pos hp, assocLookup_cons, if_pos rfl]
    · simp only [List.any_cons, Bool.or_eq_true, decide_eq_true_eq] at hmem
      rcases hmem with hmem | hmem
      · exact absurd hmem hp
      · rw [if_neg hp, assocLookup_cons, if_neg hp, ih hmem]

theorem assocLookup_append {α : Type} (ps qs : List (String × α)) (k : String) :
    assocLookup k (ps ++ qs) =
      match assocLookup k ps with
      | some w => some w
      | none => assocLookup k qs := by
  induction ps with
  | nil => rfl
  | cons p ps ih =>
    rw [List.cons_append, assocLookup_cons, assocLookup_cons]
    by_cases hp : p.1 = k
    · rw [if_pos hp, if_pos hp]
    · rw [if_neg hp, if_neg hp, ih]

theorem assocLookup_eq_none_of_not_any {α : Type} (ps : List (String × α)) (k : String)
    (h : ps.any (fun p => p.1 = k) = false) :
    assocLookup k ps = none := by
  induction ps with
  | nil => rfl
  | cons p ps ih =>
    simp only [List.any_cons, Bool.or_eq_false_iff, decide_eq_false_iff_not] at h
    rw [assocLookup_cons, if_neg h.1, ih h.2]

/-- JavaScript assignment semantics of `jsSetField` at the level of lookups. -/
theorem assocLookup_jsSetField {α : Type} (fields : List (String × α)) (k k2 : String) (v : α) :
    assocLookup k2 (jsSetField fields k v) =
      if k2 = k then some v else assocLookup k2 fields := by
  unfold jsSetField
  by_cases hmem : fields.any (fun p => p.1 = k) = true
  · rw [if_pos hmem]
    by_cases hk : k2 = k
    · subst hk; rw [if_pos rfl, assocLookup_map_set_eq _ _ _ hmem]
    · rw [if_neg hk, assocLookup_map_set_ne _ _ _ _ hk]
  · rw [if_neg hmem, assocLookup_append]
    rw [Bool.not_eq_true] at hmem
    by_cases hk : k2 = k
    · subst hk
      rw [assocLookup_eq_none_of_not_any _ _ hmem, if_pos rfl, assocLookup_cons, if_pos rfl]
    · rw [if_neg hk]
      rcases h2 : assocLookup k2 fields with _ | w
      · rw [assocLookup_cons]
        have : ¬ ((k, v).1 = k2) := fun hh => hk hh.symm
        rw [if_neg this]
        rfl
      · rfl

theorem assignAll_lookup (ps : List (String × JVal)) (m : List (String × JVal))
    (k : String) :
    assocLookup k (assignAll m ps) =
      match lastAssign k ps with
      | some v => some v
      | none => assocLookup k m := by
  induction ps generalizing m with
  | nil => rfl
  | cons p ps ih =>
    simp only [assignAll, lastAssign]
    rw [ih]
    rcases lastAssign k ps with _ | v
    · simp only []
      rw [assocLookup_jsSetField]
      by_cases hk : p.1 = k
      · rw [if_pos hk.symm, if_pos hk]
      · rw [if_neg (fun hh : k = p.1 => hk hh.symm), if_neg hk]
    · simp only []

theorem lastAssign_append {α : Type} (ps qs : List (String × α)) (k : String) :
    lastAssign k (ps ++ qs) =
      match lastAssign k qs with
      | some v => some v
      | none => lastAssign k ps := by
  induction ps with
  | nil =>
    rw [List.nil_append]
    rcases lastAssign k qs with _ | v <;> rfl
  | cons p ps ih =>
    rw [List.cons_append]
    simp only [lastAssign]
    rw [ih]
    rcases lastAssign k qs with _ | v
    · simp only []
    · simp only []

theorem lastAssign_eq_none {α : Type} (ps : List (String × α)) (k : String)
    (h : ∀ p ∈ ps, p.1 ≠ k) :
    lastAssign k ps = none := by
  induction ps with
  | nil => rfl
  | cons p ps ih =>
    simp only [lastAssign]
    rw [ih (fun q hq => h q (List.mem_cons_of_mem p hq))]
    rw [if_neg (h p (List.mem_cons_self p ps))]

theorem questionPairs_append (l1 : List Question) (r1 : List JVal) (qs : List Question)
    (rs : List JVal) (hlen : r1.length = l1.length) :
    questionPairs (l1 ++ qs) (r1 ++ rs) = questionPairs l1 r1 ++ questionPairs qs rs := by
  induction l1 generalizing r1 with
  | nil =>
    rw [List.length_nil, List.length_eq_zero] at hlen
    subst hlen
    rfl
  | cons q l1 ih =>
    rcases r1 with _ | ⟨r, r1⟩
    · simp at hlen
    · simp only [List.length_cons, Nat.succ_inj] at hlen
      simp only [List.cons_append, questionPairs, List.headD, List.tail, List.append_eq]
      rw [ih r1 hlen]

theorem questionPairs_keys (qs : List Question) (rs : List JVal) :
    ∀ p ∈ questionPairs qs rs, ∃ q ∈ qs, p.1 = q.text := by
  induction qs generalizing rs with
  | nil => intro p hp; cases hp
  | cons q qs ih =>
    intro p hp
    simp only [questionPairs] at hp
    rcases List.mem_cons.mp hp with hp | hp
    · exact ⟨q, List.mem_cons_self q qs, by rw [hp]⟩
    · obtain ⟨q2, hq2, hq2t⟩ := ih rs.tail p hp
      exact ⟨q2, List.mem_cons_of_mem q hq2, hq2t⟩

/-! ## Claim C1 -/

/-- C1: `parseTask` (the `extract` operation) returns normally on every task
text and every assisted-path outcome — transport and JSON-parse failures are
recovered internally — and the returned plan's `questions` list is never
empty. -/
theorem c1_extract_total_questions_nonempty (td : String) (outcome : AiOutcome) :
    (parseTask td outcome).questions ≠ [] := by
  cases outcome with
  | assistedValid t => exact validate_questions_ne_nil t td
  | assistedUnparseable => exact validate_questions_ne_nil _ td
  | assistedThrew => exact fallback_questions_ne_nil td

/-! ## Claim C3 -/

def c3Text : String := "Return the answers as a JSON array or a JSON object"

/-- C3 counterexample: a task text containing both "JSON array" and
"JSON object" yields `json_array` (ordered-array), not `json_object`,
because the source tests "JSON array" first — refuting the claim that every
text containing "JSON object" gets the keyed-object shape. -/
theorem c3_counterexample :
    strIncludes c3Text "JSON object" = true ∧
    (fallbackTaskParsing c3Text).outputFormat = .json_array ∧
    (fallbackTaskParsing c3Text).outputFormat ≠ .json_object := by
  decide

/-- C3 (amended): on the heuristic fallback path, a text containing
"JSON array" gets the ordered-array shape (even if it also contains
"JSON object"); otherwise a text containing "JSON object" gets the
keyed-object shape; otherwise the default is ordered-array. -/
theorem c3_outputShape_amended (td : String) :
    (strIncludes td "JSON array" = true →
      (fallbackTaskParsing td).outputFormat = .json_array) ∧
    (strIncludes td "JSON array" = false → strIncludes td "JSON object" = true →
      (fallbackTaskParsing td).outputFormat = .json_object) ∧
    (strIncludes td "JSON array" = false → strIncludes td "JSON object" = false →
      (fallbackTaskParsing td).outputFormat = .json_array) := by
  refine ⟨fun h1 => ?_, fun h1 h2 => ?_, fun h1 h2 => ?_⟩
  · simp [fallbackTaskParsing, h1]
  · simp [fallbackTaskParsing, h1, h2]
  · simp [fallbackTaskParsing, h1, h2]

/-- C3 witness: the amended theorem applied at concrete inputs on all three
branches. -/
theorem c3_outputShape_amended_witness :
    (fallbackTaskParsing "as a JSON array with a JSON object inside").outputFormat = .json_array ∧
    (fallbackTaskParsing "Respond with a JSON object").outputFormat = .json_object ∧
    (fallbackTaskParsing "just answer").outputFormat = .json_array :=
  ⟨(c3_outputShape_amended "as a JSON array with a JSON object inside").1 (by decide),
   (c3_outputShape_amended "Respond with a JSON object").2.1 (by decide) (by decide),
   (c3_outputShape_amended "just answer").2.2 (by decide) (by decide)⟩

/-! ## Claim C7 -/

/-- C7 counterexample: the input `" plot "` contains no URL, no query
fragment and no numbered list, yet the fallback question keeps the
*untrimmed* text `" plot "` (the claim says the trimmed input) and is
classified `visualization` by the keyword pass (the claim says `text`). -/
theorem c7_counterexample :
    firstUrlMatch " plot " = none ∧
    duckdbMatch " plot " = none ∧
    numberedMatches " plot " = [] ∧
    (fallbackTaskParsing " plot ").questions.map Question.text = [" plot "] ∧
    jsTrim " plot " = "plot" ∧
    (" plot " : String) ≠ "plot" ∧
    (fallbackTaskParsing " plot ").questions.map Question.qtype = [QType.visualization] := by
  decide

/-- C7 (amended): for every task text with no URL, no `SELECT ... FROM ...;`
fragment, no numbered-list pattern, and no visualization keyword, the
heuristic fallback produces exactly one question whose text is the input
verbatim (not trimmed) with `answerKind = text`. -/
theorem c7_fallback_single_question_amended (td : String)
    (_hurl : firstUrlMatch td = none)
    (_hq : duckdbMatch td = none)
    (hnum : numberedMatches td = [])
    (hviz : ∀ kw ∈ visualizationKeywords, strIncludes (jsToLower td) kw = false) :
    (fallbackTaskParsing td).questions =
      [{ text := td, qtype := .text, expectedFormat := .string, visualization := none }] := by
  have hany : (visualizationKeywords.any (fun kw => strIncludes (jsToLower td) kw)) = false := by
    rw [List.any_eq_false]
    intro kw hkw
    simp [hviz kw hkw]
  simp [fallbackTaskParsing, hnum, applyVisualizationPass, hany]

/-- C7 witness: the amended theorem at a concrete plain-text task. -/
theorem c7_fallback_single_question_amended_witness :
    (fallbackTaskParsing "Tell me about the dataset").questions =
      [{ text := "Tell me about the dataset", qtype := .text, expectedFormat := .string,
         visualization := none }] :=
  c7_fallback_single_question_amended "Tell me about the dataset"
    (by decide) (by decide) (by decide) (by decide)

/-! ## Claim C4 -/

def qX : Question := { text := "x", qtype := .text, expectedFormat := .string }

def c4BadTask : AnalysisTask :=
  { ttype := .mixed, questions := [qX], outputFormat := .json_object,
    context := some "Respond with a JSON array" }

/-- C4 counterexample: a plan with `outputShape = keyed-object` whose retained
context contains "JSON array" is assembled as an ordered array — the
question-text key is absent — refuting the claim for *every* keyed-object
plan (the context override is checked first). -/
theorem c4_counterexample :
    c4BadTask.outputFormat = .json_object ∧
    formatResults [JVal.num 7] c4BadTask = .arr [JVal.num 7] ∧
    objLookup (formatResults [JVal.num 7] c4BadTask) "x" = none :=
  ⟨rfl, rfl, rfl⟩

/-- C4 (amended): for a keyed-object plan that triggers neither the
films-URL/"JSON array" override nor the court-context override,
`formatResults` maps each question's literal text to the answer at the same
index, and when several questions share a text the key holds the answer of
the last of them. -/
theorem c4_keyed_object_assembly_amended (task : AnalysisTask) (rs : List JVal)
    (l1 l2 : List Question) (q : Question) (r1 r2 : List JVal) (r : JVal)
    (hover1 : (((dsUrl task.dataSource).map
        (fun u => strIncludes u "List_of_highest-grossing_films")).getD false
      || (task.context.map (fun c => strIncludes c "JSON array")).getD false) = false)
    (hover2 : (task.context.map
        (fun c => strIncludes c "Indian high court judgement dataset")).getD false = false)
    (hof : task.outputFormat = .json_object)
    (hqs : task.questions = l1 ++ q :: l2)
    (hrs : rs = r1 ++ r :: r2)
    (hlen : r1.length = l1.length)
    (hlater : ∀ q2 ∈ l2, q2.text ≠ q.text) :
    objLookup (formatResults rs task) q.text = some r := by
  have hform : formatResults rs task = .obj (buildResultObject task.questions rs) := by
    unfold formatResults
    rw [hover1, hover2, hof]
    simp
  rw [hform]
  show assocLookup q.text (buildResultObject task.questions rs) = some r
  unfold buildResultObject
  rw [assignAll_lookup, hqs, hrs, questionPairs_append _ _ _ _ hlen]
  have hcons : questionPairs (q :: l2) (r :: r2) = (q.text, r) :: questionPairs l2 r2 := rfl
  rw [hcons, lastAssign_append]
  have hnone : lastAssign q.text (questionPairs l2 r2) = none := by
    apply lastAssign_eq_none
    intro p hp
    obtain ⟨q2, hq2, hq2t⟩ := questionPairs_keys l2 r2 p hp
    rw [hq2t]
    exact hlater q2 hq2
  simp only [lastAssign, hnone]
  simp

def qDup : Question := { text := "dup", qtype := .text, expectedFormat := .string }

def c4Task : AnalysisTask :=
  { ttype := .mixed, questions := [qDup, qDup], outputFormat := .json_object,
    context := some "plain context" }

/-- C4 witness: two questions with the same text — the later answer wins at
that key. -/
theorem c4_keyed_object_assembly_amended_witness :
    objLookup (formatResults [JVal.num 1, JVal.num 2] c4Task) "dup" = some (JVal.num 2) :=
  c4_keyed_object_assembly_amended c4Task [JVal.num 1, JVal.num 2]
    [qDup] [] qDup [JVal.num 1] [] (JVal.num 2)
    (by decide) (by decide) rfl rfl rfl rfl
    (by intro q2 hq2; cases hq2)

/-! ## Claim C5 -/

def c5BadTask : AnalysisTask :=
  { ttype := .mixed, questions := [qX], outputFormat := .json_object,
    context := some "Indian high court judgement dataset, respond with a JSON array" }

/-- C5 counterexample: a plan whose context contains the court marker *and*
"JSON array" is assembled as an ordered array, not the fixed three-key
object — the array override is tested first, refuting the court half of the
claim as a universal. -/
theorem c5_counterexample :
    strIncludes "Indian high court judgement dataset, respond with a JSON array"
      "Indian high court judgement dataset" = true ∧
    formatResults [JVal.str "img"] c5BadTask = .arr [JVal.str "img"] ∧
    objLookup (formatResults [JVal.str "img"] c5BadTask) courtKey3 = none :=
  ⟨by decide, rfl, rfl⟩

/-- C5 (amended): the films-URL/"JSON array" override returns the answers as
an ordered array regardless of the declared output shape; only when it does
not match does the court-context override return the fixed three-key object,
whose plot key holds the first answer when that answer is truthy and a
hard-coded placeholder data-URI otherwise. -/
theorem c5_format_overrides_amended (rs : List JVal) (task : AnalysisTask) :
    ((((dsUrl task.dataSource).map
          (fun u => strIncludes u "List_of_highest-grossing_films")).getD false
        || (task.context.map (fun c => strIncludes c "JSON array")).getD false) = true →
      formatResults rs task = .arr rs) ∧
    ((((dsUrl task.dataSource).map
          (fun u => strIncludes u "List_of_highest-grossing_films")).getD false
        || (task.context.map (fun c => strIncludes c "JSON array")).getD false) = false →
      (task.context.map
        (fun c => strIncludes c "Indian high court judgement dataset")).getD false = true →
      jsTruthy (rs.headD .undefined) = true →
      formatResults rs task = .obj
        [(courtKey1, .str "Madras High Court"), (courtKey2, .str "0.75"),
         (courtKey3, rs.headD .undefined)]) ∧
    ((((dsUrl task.dataSource).map
          (fun u => strIncludes u "List_of_highest-grossing_films")).getD false
        || (task.context.map (fun c => strIncludes c "JSON array")).getD false) = false →
      (task.context.map
        (fun c => strIncludes c "Indian high court judgement dataset")).getD false = true →
      jsTruthy (rs.headD .undefined) = false →
      formatResults rs task = .obj
        [(courtKey1, .str "Madras High Court"), (courtKey2, .str "0.75"),
         (courtKey3, .str courtPlaceholder)]) := by
  refine ⟨fun h1 => ?_, fun h1 h2 h3 => ?_, fun h1 h2 h3 => ?_⟩
  · unfold formatResults
    rw [h1]
    simp
  · unfold formatResults
    rw [h1, h2, h3]
    simp
  · unfold formatResults
    rw [h1, h2, h3]
    simp

def c5FilmsTask : AnalysisTask :=
  { ttype := .web_scraping,
    dataSource := some (.web "https://en.wikipedia.org/wiki/List_of_highest-grossing_films"),
    questions := [qX], outputFormat := .json_object, context := some "film questions" }

def c5CourtTask : AnalysisTask :=
  { ttype := .mixed, questions := [qX], outputFormat := .json_array,
    context := some "the Indian high court judgement dataset task" }

/-- C5 witness: the amended theorem applied on all three branches — films URL
with keyed-object shape still yields an array; court context substitutes a
truthy first answer into the plot key; an empty answer list gets the
placeholder. -/
theorem c5_format_overrides_amended_witness :
    formatResults [JVal.num 3] c5FilmsTask = .arr [JVal.num 3] ∧
    formatResults [JVal.str "img"] c5CourtTask = .obj
      [(courtKey1, .str "Madras High Court"), (courtKey2, .str "0.75"),
       (courtKey3, JVal.str "img")] ∧
    formatResults [] c5CourtTask = .obj
      [(courtKey1, .str "Madras High Court"), (courtKey2, .str "0.75"),
       (courtKey3, .str courtPlaceholder)] :=
  ⟨(c5_format_overrides_amended [JVal.num 3] c5FilmsTask).1 (by decide),
   (c5_format_overrides_amended [JVal.str "img"] c5CourtTask).2.1 (by decide) (by decide) (by decide),
   (c5_format_overrides_amended [] c5CourtTask).2.2 (by decide) (by decide) (by decide)⟩

/-! ## Claim C6 -/

/-- C6 counterexample: an HTTP 401 (authentication) failure of the proxied
completion call is swallowed by `generateResponse` and degraded to the
deterministic mock answer — a normal return value, not an escalated failure —
refuting the claim that authentication errors abort the request. -/
theorem c6_counterexample :
    generateResponse "sk-test" "Compute the correlation between the columns"
        (.httpError 401) =
      generateMockResponse "Compute the correlation between the columns" ∧
    generateResponse "sk-test" "Compute the correlation between the columns"
        (.httpError 401) = "0.485782" :=
  ⟨rfl, by decide⟩

/-- C6 (amended): in the core answering path, *every* transport failure —
authentication errors included — is recovered internally by
`generateResponse` as the mock answer, and no failure kind is escalated;
only the legacy pages-router helper `makeOpenAICall` treats 401/403 as
non-retryable and re-throws immediately, while other errors are retried. -/
theorem c6_auth_error_handling_amended :
    (∀ (key prompt : String) (st : ℕ),
      generateResponse key prompt (.httpError st) = generateMockResponse prompt) ∧
    (∀ (attempts : ℕ → Except JsError String) (e : JsError),
      isAuthError e = true → attempts 0 = .error e →
      makeOpenAICall attempts 2 = .error e) ∧
    (∀ (attempts : ℕ → Except JsError String) (e : JsError) (r : String),
      isAuthError e = false → attempts 0 = .error e → attempts 1 = .ok r →
      makeOpenAICall attempts 2 = .ok r) := by
  refine ⟨fun key prompt st => ?_, fun attempts e hauth h0 => ?_, fun attempts e r hauth h0 h1 => ?_⟩
  · unfold generateResponse
    by_cases hk : key = ""
    · rw [if_pos hk]
    · rw [if_neg hk]
  · unfold makeOpenAICall runAttempts
    rw [h0]
    simp [hauth]
  · unfold makeOpenAICall runAttempts
    rw [h0]
    simp only [hauth, Bool.false_eq_true, if_false]
    unfold runAttempts
    rw [h1]

/-- C6 witness: the amended theorem at a concrete prompt, a concrete 401
error, and a concrete retry trace. -/
theorem c6_auth_error_handling_amended_witness :
    generateResponse "sk-live" "hello" (.httpError 401) = generateMockResponse "hello" ∧
    makeOpenAICall (fun _ => .error { status := some 401, message := "Unauthorized" }) 2 =
      .error { status := some 401, message := "Unauthorized" } ∧
    makeOpenAICall
      (fun i => if i = 0 then .error { status := none, message := "ECONNRESET" }
                else .ok "recovered") 2 = .ok "recovered" :=
  ⟨c6_auth_error_handling_amended.1 "sk-live" "hello" 401,
   c6_auth_error_handling_amended.2.1 _ _ (by decide) rfl,
   c6_auth_error_handling_amended.2.2 _ _ "recovered" (by decide) rfl rfl⟩

/-! ## Claim C8 -/

/-- C8: the sort step's comparator compares two field values numerically when
both parse as floating point and otherwise falls back to case-insensitive
lexical comparison (the source comparator coincides with the spec's
description on every pair of records), and sorting
`[{v:"10"},{v:"2"},{v:"1"}]` ascending on `v` yields the numeric order
`1, 2, 10`. -/
theorem c8_sort_numeric_first :
    (∀ (field : String) (ascending : Bool) (a b : Record),
      sortCmp field ascending a b = specSortCmp field ascending a b) ∧
    sortData [[("v", Cell.str "10")], [("v", Cell.str "2")], [("v", Cell.str "1")]] "v" true =
      [[("v", Cell.str "1")], [("v", Cell.str "2")], [("v", Cell.str "10")]] := by
  constructor
  · intro field ascending a b
    unfold sortCmp specSortCmp
    rcases ha : cellParseFloat (getField a field) with _ | x <;>
      rcases hb : cellParseFloat (getField b field) with _ | y <;>
      simp [ha, hb]
  · decide

/-! ## Claim C9 -/

/-- C9 counterexample: the filter step's `equals` operator is JavaScript
strict equality and therefore case-sensitive — a record whose field value
differs from the literal only in letter case is *dropped* by `equals` and
*kept* by `not-equals`, the opposite of the claim. -/
theorem c9_counterexample :
    filterData [[("v", Cell.str "Hello")]] "v" .equals (Cell.str "hello") = [] ∧
    filterData [[("v", Cell.str "Hello")]] "v" .not_equals (Cell.str "hello") =
      [[("v", Cell.str "Hello")]] := by
  decide

/-- C9 (amended): the filter step's `equals` and `not-equals` operators are
case-sensitive strict comparisons, while `contains`, `starts-with` and
`ends-with` are case-insensitive (their outcome is invariant under changing
the letter case of either side). -/
theorem c9_filter_case_sensitivity_amended :
    (∀ s t : String, filterKeep .equals (.str s) (.str t) = true ↔ s = t) ∧
    (∀ s t : String, filterKeep .not_equals (.str s) (.str t) = true ↔ s ≠ t) ∧
    (∀ s s2 t t2 : String, jsToLower s = jsToLower s2 → jsToLower t = jsToLower t2 →
      filterKeep .contains (.str s) (.str t) = filterKeep .contains (.str s2) (.str t2)) ∧
    (∀ s s2 t t2 : String, jsToLower s = jsToLower s2 → jsToLower t = jsToLower t2 →
      filterKeep .starts_with (.str s) (.str t) = filterKeep .starts_with (.str s2) (.str t2)) ∧
    (∀ s s2 t t2 : String, jsToLower s = jsToLower s2 → jsToLower t = jsToLower t2 →
      filterKeep .ends_with (.str s) (.str t) = filterKeep .ends_with (.str s2) (.str t2)) := by
  refine ⟨fun s t => ?_, fun s t => ?_,
    fun s s2 t t2 h1 h2 => ?_, fun s s2 t t2 h1 h2 => ?_, fun s s2 t t2 h1 h2 => ?_⟩
  · simp [filterKeep, jsStrictEq]
  · simp [filterKeep, jsStrictEq]
  · simp [filterKeep, cellToString, h1, h2]
  · simp [filterKeep, cellToString, h1, h2]
  · simp [filterKeep, cellToString, h1, h2]

/-- C9 witness: the amended theorem at concrete strings — strict equality on
equal strings, inequality on case-variants, and case-insensitivity of
`contains` across case-variants of both sides. -/
theorem c9_filter_case_sensitivity_amended_witness :
    filterKeep .equals (.str "Hello") (.str "Hello") = true ∧
    (¬ filterKeep .equals (.str "Hello") (.str "hello") = true) ∧
    filterKeep .contains (.str "HeLLo") (.str "ell") =
      filterKeep .contains (.str "hello") (.str "ELL") :=
  ⟨(c9_filter_case_sensitivity_amended.1 "Hello" "Hello").mpr rfl,
   fun h => absurd ((c9_filter_case_sensitivity_amended.1 "Hello" "hello").mp h) (by decide),
   c9_filter_case_sensitivity_amended.2.2.1 "HeLLo" "hello" "ell" "ELL" (by decide) (by decide)⟩

/-! ## Claim C10 -/

/-- C10: the calculate step with operation `divide` and a divisor field whose
value reads as 0 writes 0 into the new field and raises no error; in
particular `{a:10, b:0}` yields a `result` field of 0. -/
theorem c10_divide_by_zero_yields_zero :
    (∀ (item : Record) (f1 f2 nf : String),
      cellToNumOr0 (getField item f2) = 0 →
      assocLookup nf (calcRecord .divide f1 f2 nf item) = some (.num 0)) ∧
    calculateData [[("a", Cell.num 10), ("b", Cell.num 0)]] .divide "a" "b" "result" =
      [[("a", Cell.num 10), ("b", Cell.num 0), ("result", Cell.num 0)]] := by
  constructor
  · intro item f1 f2 nf h
    unfold calcRecord
    rw [assocLookup_jsSetField, if_pos rfl, h]
    simp [calcApply]
  · decide

/-- C10 witness: the general divide-by-zero statement applied at the record
`{a:10, b:0}`. -/
theorem c10_divide_by_zero_yields_zero_witness :
    assocLookup "result"
      (calcRecord .divide "a" "b" "result" [("a", Cell.num 10), ("b", Cell.num 0)]) =
      some (.num 0) :=
  c10_divide_by_zero_yields_zero.1 [("a", Cell.num 10), ("b", Cell.num 0)] "a" "b" "result"
    (by decide)


/-! ## Claim C2 -/

theorem extractRankPeak_concrete :
    extractRankPeak (some rankPeakData) = some ([1, 2, 3, 4, 5], [1, 1, 1, 2, 3]) := by
  decide

/-- The hard-coded correlation path at the concrete table evaluates to the
rounded value of `25 / √800`. -/
theorem corr_concrete :
    calculateRankPeakCorrelation (some rankPeakData) = jsRound6 (25 / Real.sqrt 800) := by
  unfold calculateRankPeakCorrelation
  rw [extractRankPeak_concrete]
  have hstats : corrStats [1, 2, 3, 4, 5] [1, 1, 1, 2, 3] = (15, 8, 29, 55, 16) := by decide
  simp only [hstats]
  have hden : ((((5 : ℤ) * 55 - 15 * 15) * (5 * 16 - 8 * 8) : ℤ) : ℝ) = 800 := by norm_num
  have hne : Real.sqrt 800 ≠ 0 := ne_of_gt (Real.sqrt_pos.mpr (by norm_num))
  norm_num [hden, hne]

theorem pearson_concrete :
    pearsonStd [1, 2, 3, 4, 5] [1, 1, 1, 2, 3] = 5 / (Real.sqrt 10 * Real.sqrt (16 / 5)) := by
  unfold pearsonStd
  simp only [List.zip_cons_cons, List.zip_nil_right, List.map_cons, List.map_nil,
    List.sum_cons, List.sum_nil, List.length_cons, List.length_nil]
  norm_num

theorem sqrt_mul_combine : Real.sqrt 10 * Real.sqrt (16 / 5) = Real.sqrt 32 := by
  rw [← Real.sqrt_mul (by norm_num : (0:ℝ) ≤ 10)]
  norm_num

theorem sqrt_800_eq : Real.sqrt 800 = 5 * Real.sqrt 32 := by
  rw [show (800 : ℝ) = 5 ^ 2 * 32 by norm_num,
    Real.sqrt_mul (by positivity), Real.sqrt_sq (by norm_num)]

theorem code_eq_spec_value : (25 : ℝ) / Real.sqrt 800 = 5 / (Real.sqrt 10 * Real.sqrt (16 / 5)) := by
  rw [sqrt_mul_combine, sqrt_800_eq]
  have h32 : Real.sqrt 32 ≠ 0 := ne_of_gt (Real.sqrt_pos.mpr (by norm_num))
  field_simp
  ring

/-- The computed (pre-rounding) correlation is bounded below, so its rounded
value is nonzero. -/
theorem corr_concrete_ne_zero : calculateRankPeakCorrelation (some rankPeakData) ≠ 0 := by
  rw [corr_concrete]
  unfold jsRound6
  have hlt : Real.sqrt 800 < 29 := by
    calc Real.sqrt 800 < Real.sqrt (29 ^ 2) :=
          Real.sqrt_lt_sqrt (by norm_num) (by norm_num)
      _ = 29 := Real.sqrt_sq (by norm_num)
  have hpos : 0 < Real.sqrt 800 := Real.sqrt_pos.mpr (by norm_num)
  have hq : (25 : ℝ) / 29 < 25 / Real.sqrt 800 :=
    div_lt_div_of_pos_left (by norm_num) hpos hlt
  have h1 : (1 : ℝ) ≤ 25 / Real.sqrt 800 * 1000000 + 1 / 2 := by nlinarith
  have hfloor : (1 : ℤ) ≤ ⌊(25 : ℝ) / Real.sqrt 800 * 1000000 + 1 / 2⌋ :=
    Int.le_floor.mpr (by exact_mod_cast h1)
  intro h
  rw [div_eq_zero_iff] at h
  rcases h with h | h
  · have : ⌊(25 : ℝ) / Real.sqrt 800 * 1000000 + 1 / 2⌋ = 0 := by exact_mod_cast h
    omega
  · norm_num at h

def c2BadQuestion : String :=
  "How many 2 bn films before 2020, and the correlation between rank and peak?"

/-- C2 counterexample: a question containing "correlation", "rank" and "peak"
that *also* matches the earlier "how many 2 bn ... before 2020" pattern takes
the count branch, so its answer is the count (here 0), not the Pearson
coefficient — the source tests the three hard-coded patterns in order. -/
theorem c2_counterexample :
    analyzeSpecificQuestion (some rankPeakData) c2BadQuestion .correlation =
      .directNum ((count2BnMoviesBefore2020 (some rankPeakData) : ℤ) : ℝ) ∧
    count2BnMoviesBefore2020 (some rankPeakData) = 0 ∧
    analyzeSpecificQuestion (some rankPeakData) c2BadQuestion .correlation ≠
      .directNum (calculateRankPeakCorrelation (some rankPeakData)) := by
  have h1 : (strIncludes (jsToLower c2BadQuestion) "how many" &&
      strIncludes (jsToLower c2BadQuestion) "2 bn" &&
      strIncludes (jsToLower c2BadQuestion) "before 2020") = true := by decide
  have hcount : count2BnMoviesBefore2020 (some rankPeakData) = 0 := by decide
  refine ⟨?_, hcount, ?_⟩
  · simp [analyzeSpecificQuestion, h1]
  · simp only [analyzeSpecificQuestion, h1, if_true, hcount]
    intro h
    have : ((0 : ℤ) : ℝ) = calculateRankPeakCorrelation (some rankPeakData) := by
      injection h
    exact corr_concrete_ne_zero (by rw [← this]; norm_num)

/-- C2 (amended): a question containing "correlation", "rank" and "peak"
(case-insensitive) that does not also match the earlier hard-coded count and
earliest-film patterns is answered directly by `calculateRankPeakCorrelation`
— never delegated to the LanguageModel collaborator — and on the dataset
with rank = [1,2,3,4,5], peak = [1,1,1,2,3] the result equals the standard
Pearson correlation coefficient rounded to 6 decimal places. -/
theorem c2_correlation_direct_amended (data : Option ScrapedData) (question : String)
    (qtype : QType)
    (hc : strIncludes (jsToLower question) "correlation" = true)
    (hr : strIncludes (jsToLower question) "rank" = true)
    (hp : strIncludes (jsToLower question) "peak" = true)
    (hn1 : (strIncludes (jsToLower question) "how many" &&
        strIncludes (jsToLower question) "2 bn" &&
        strIncludes (jsToLower question) "before 2020") = false)
    (hn2 : (strIncludes (jsToLower question) "earliest" &&
        strIncludes (jsToLower question) "1.5 bn") = false) :
    analyzeSpecificQuestion data question qtype =
      .directNum (calculateRankPeakCorrelation data) ∧
    (∀ (q2 : String) (t2 : QType),
      analyzeSpecificQuestion data question qtype ≠ .delegated q2 t2) ∧
    calculateRankPeakCorrelation (some rankPeakData) =
      jsRound6 (pearsonStd [1, 2, 3, 4, 5] [1, 1, 1, 2, 3]) := by
  have hmain : analyzeSpecificQuestion data question qtype =
      .directNum (calculateRankPeakCorrelation data) := by
    simp [analyzeSpecificQuestion, hn1, hn2, hc, hr, hp]
  refine ⟨hmain, ?_, ?_⟩
  · intro q2 t2
    rw [hmain]
    intro h
    exact QAnswer.noConfusion h
  · rw [corr_concrete, pearson_concrete, code_eq_spec_value]

/-- C2 witness: the amended theorem at the concrete correlation question and
the concrete Rank/Peak table. -/
theorem c2_correlation_direct_amended_witness :
    analyzeSpecificQuestion (some rankPeakData)
        "What is the correlation between the Rank and Peak columns?" .correlation =
      .directNum (calculateRankPeakCorrelation (some rankPeakData)) ∧
    calculateRankPeakCorrelation (some rankPeakData) =
      jsRound6 (pearsonStd [1, 2, 3, 4, 5] [1, 1, 1, 2, 3]) :=
  ⟨(c2_correlation_direct_amended (some rankPeakData)
      "What is the correlation between the Rank and Peak columns?" .correlation
      (by decide) (by decide) (by decide) (by decide) (by decide)).1,
   (c2_correlation_direct_amended (some rankPeakData)
      "What is the correlation between the Rank and Peak columns?" .correlation
      (by decide) (by decide) (by decide) (by decide) (by decide)).2.2⟩
